import Mathlib

/-!
Verification of the weather aggregation route handler
(the exported `GET` of the Next.js route in `src/unnamed/part_000`).

Modelling conventions:
* JS numbers are rationals (`ℚ`); `Math.round` is `⌊x + 1/2⌋` (round half
  toward +∞, the JS semantics), embedded as `jround`.
* Strings are `String`; for the URL-redaction reasoning they are viewed as
  `List Char`.
* The three upstream fetches are parameters of the pure handler: each is an
  outcome value describing what the network/parsing produced.  A thrown
  exception (network failure or failed JSON parse) is an explicit
  constructor.
* The handler returns the HTTP response together with the number of
  upstream fetches it attempted (0, 1 or 3), which makes the "no network
  call is made" parts of the spec statable.
-/

/-- JS `Math.round`: round half up (toward +∞), i.e. `⌊x + 1/2⌋`. -/
def jround (q : ℚ) : ℤ := ⌊q + 1/2⌋

/-- JS `x || d` for an optional numeric field: `undefined` and `0` are falsy. -/
def jsOrQ (o : Option ℚ) (d : ℚ) : ℚ :=
  match o with
  | none => d
  | some x => if x = 0 then d else x

/-- JS falsiness of a nullable string (`searchParams.get`, `process.env`):
`null`/`undefined` or the empty string. -/
def jsFalsyStr (o : Option String) : Bool :=
  match o with
  | none => true
  | some s => s == ""

/-- `Response.ok` of the Fetch API: status in `[200, 300)`. -/
def httpOk (s : Nat) : Bool := 200 ≤ s && s < 300

/-- The parsed JSON body of a successful `/weather` call, with exactly the
fields the handler reads.  `weather…` fields are `weather[0]` of the payload;
`visibility` and `wind.speed` are optional because the handler guards them
with `|| 10000` resp. `?.` and `|| 0`. -/
structure CurrentPayload where
  name : String
  sysCountry : String
  coordLat : ℚ
  coordLon : ℚ
  mainTemp : ℚ
  mainFeelsLike : ℚ
  mainHumidity : ℤ
  mainPressure : ℤ
  visibility : Option ℚ
  windSpeed : Option ℚ
  weatherMain : String
  weatherDescription : String
  weatherIcon : String
deriving DecidableEq

/-- One entry of the upstream forecast list, with the fields the handler
reads (`dt`, `main.temp`, `main.humidity`, `weather[0]`, `wind?.speed`,
`pop`). -/
structure ForecastEntry where
  dt : ℤ
  mainTemp : ℚ
  mainHumidity : ℤ
  weatherMain : String
  weatherDescription : String
  weatherIcon : String
  windSpeed : Option ℚ
  pop : ℚ
deriving DecidableEq

/-- Outcome of the mandatory current-conditions fetch.  `netThrow` models
`fetch` itself throwing (network failure); `resp` carries the HTTP status,
the error text read on non-ok statuses, and the parsed payload (`none`
models `weatherResponse.json()` throwing on malformed JSON, which the outer
`catch` turns into a 500). -/
inductive CurrentOutcome where
  | netThrow : CurrentOutcome
  | resp (status : Nat) (errorText : String) (payload : Option CurrentPayload) : CurrentOutcome
deriving DecidableEq

/-- Outcome of the best-effort forecast fetch.  `fail` models any throw
inside the inner `try` (network failure or JSON-shape failure); `resp`
carries the status and the parsed `list` field. -/
inductive ForecastOutcome where
  | fail : ForecastOutcome
  | resp (status : Nat) (list : List ForecastEntry) : ForecastOutcome
deriving DecidableEq

/-- Outcome of the best-effort UV-index fetch; `value` is `none` when the
`value` field is absent (the handler guards it with `|| 0`). -/
inductive UvOutcome where
  | fail : UvOutcome
  | resp (status : Nat) (value : Option ℚ) : UvOutcome
deriving DecidableEq

/-- One entry of the `hourlyForecast` array of the response. -/
structure HourlyEntry where
  time : ℤ
  temperature : ℤ
  condition : String
  description : String
  iconCode : String
  humidity : ℤ
  windSpeed : ℤ
  precipitation : ℚ
deriving DecidableEq

/-- The normalized weather record (`transformedData` in the source). -/
structure WeatherRecord where
  city : String
  country : String
  temperature : ℤ
  condition : String
  description : String
  humidity : ℤ
  windSpeed : ℤ
  windUnit : String
  visibility : ℤ
  visibilityUnit : String
  pressure : ℤ
  feelsLike : ℤ
  uvIndex : ℤ
  icon : String
  iconCode : String
  units : String
  tempUnit : String
  hourlyForecast : List HourlyEntry
deriving DecidableEq

/-- An HTTP response of the route: `NextResponse.json(record)` (status 200)
or `NextResponse.json({ error }, { status })` — an error body holds only the
`error` string. -/
inductive Response where
  | ok (status : Nat) (record : WeatherRecord) : Response
  | err (status : Nat) (error : String) : Response
deriving DecidableEq

/-- `searchParams.get("units") || "imperial"`. -/
def effUnits (unitsParam : Option String) : String :=
  match unitsParam with
  | none => "imperial"
  | some s => if s == "" then "imperial" else s

/-- The per-entry forecast transform (the `.map` callback of the source). -/
def mapForecastEntry (units : String) (item : ForecastEntry) : HourlyEntry :=
  { time := item.dt
    temperature := jround item.mainTemp
    condition := item.weatherMain
    description := item.weatherDescription
    iconCode := item.weatherIcon
    humidity := item.mainHumidity
    windSpeed :=
      if units == "imperial" then jround (jsOrQ item.windSpeed 0)
      else jround (jsOrQ item.windSpeed 0 * 3.6)
    precipitation := item.pop * 100 }

/-- The `hourlyForecast` value: first 8 entries mapped on a successful
forecast fetch, `[]` on any failure. -/
def hourlyOf (units : String) (fc : ForecastOutcome) : List HourlyEntry :=
  match fc with
  | .fail => []
  | .resp s l => if httpOk s then (l.take 8).map (mapForecastEntry units) else []

/-- The `uvIndex` value: `Math.round(uvData.value || 0)` on a successful UV
fetch, `0` on any failure. -/
def uvIndexOf (uv : UvOutcome) : ℤ :=
  match uv with
  | .fail => 0
  | .resp s v => if httpOk s then jround (jsOrQ v 0) else 0

/-- The error mapping for a non-ok status of the mandatory call
(lines 34–59 of the source). -/
def mapWeatherError (status : Nat) : Response :=
  if status == 401 then
    .err 401 "Invalid API key. Please check your OpenWeatherMap API key and ensure it's activated."
  else if status == 404 then
    .err 404 "City not found. Please check the spelling and try again."
  else if status == 429 then
    .err 429 "API rate limit exceeded. Please try again later."
  else
    .err status ("Weather service error (" ++ toString status ++ "). Please try again later.")

/-- `transformedData`: the merge of the three upstreams.  In the source
`windSpeed` starts as `wind?.speed || 0`, is replaced by
`Math.round(speed * 3.6)` in the metric branch (the imperial branch keeps
it), and is rounded again at the record construction; `windUnit` is set by
whichever branch ran, so the initial `"m/s"` is always overwritten. -/
def buildRecord (units : String) (w : CurrentPayload)
    (fc : ForecastOutcome) (uv : UvOutcome) : WeatherRecord :=
  let windSpeed0 : ℚ := jsOrQ w.windSpeed 0
  let windSpeed1 : ℚ :=
    if units == "imperial" then windSpeed0 else (jround (windSpeed0 * 3.6) : ℚ)
  { city := w.name
    country := w.sysCountry
    temperature := jround w.mainTemp
    condition := w.weatherMain
    description := w.weatherDescription
    humidity := w.mainHumidity
    windSpeed := jround windSpeed1
    windUnit := if units == "imperial" then "mph" else "km/h"
    visibility := jround (jsOrQ w.visibility 10000 /
      (if units == "imperial" then 1609.34 else 1000))
    visibilityUnit := if units == "imperial" then "mi" else "km"
    pressure := w.mainPressure
    feelsLike := jround w.mainFeelsLike
    uvIndex := uvIndexOf uv
    icon := w.weatherMain.toLower
    iconCode := w.weatherIcon
    units := units
    tempUnit := if units == "imperial" then "°F" else "°C"
    hourlyForecast := hourlyOf units fc }

/-- The route handler, as a pure function of the query parameters, the
configured credential and the three upstream outcomes.  The second
component counts the upstream fetches attempted: the two best-effort
fetches are both attempted exactly when the mandatory call returned an ok
status and its body parsed. -/
def GET (city unitsParam apiKey : Option String)
    (weather : CurrentOutcome) (fc : ForecastOutcome) (uv : UvOutcome) :
    Response × Nat :=
  let units := effUnits unitsParam
  if jsFalsyStr city then
    (.err 400 "City parameter is required", 0)
  else
    match apiKey with
    | none => (.err 500 "OpenWeatherMap API key not configured", 0)
    | some key =>
      if key == "" then
        (.err 500 "OpenWeatherMap API key not configured", 0)
      else if key.length ≠ 32 then
        (.err 500 "Invalid API key format. Please check your OPENWEATHER_API_KEY.", 0)
      else
        match weather with
        | .netThrow =>
          (.err 500 "Failed to fetch weather data. Please check your internet connection and try again.", 1)
        | .resp status _ payload =>
          if ¬ httpOk status then
            (mapWeatherError status, 1)
          else
            match payload with
            | none =>
              (.err 500 "Failed to fetch weather data. Please check your internet connection and try again.", 1)
            | some w => (.ok 200 (buildRecord units w fc uv), 3)

/-- The forecast branch failed: the fetch threw, parsing threw, or the
status was not ok. -/
def fcFailed : ForecastOutcome → Prop
  | .fail => True
  | .resp s _ => httpOk s = false

/-- The UV branch failed: the fetch threw, parsing threw, or the status was
not ok. -/
def uvFailed : UvOutcome → Prop
  | .fail => True
  | .resp s _ => httpOk s = false

/-- Hex digit characters used by percent-encoding. -/
def hexDigits : List Char := "0123456789ABCDEF".toList

/-- The hex digit for a value `< 16`. -/
def hexDigit (n : Nat) : Char := hexDigits.getD n 'X'

/-- Characters `encodeURIComponent` leaves intact:
`A–Z a–z 0–9 - _ . ! ~ * ' ( )`. -/
def isUriUnreserved (c : Char) : Bool :=
  c.isAlpha || c.isDigit || c == '-' || c == '_' || c == '.' || c == '!' ||
    c == '~' || c == '*' || c == Char.ofNat 39 || c == '(' || c == ')'

/-- UTF-8 bytes of a Unicode scalar value. -/
def utf8Bytes (c : Char) : List Nat :=
  let n := c.toNat
  if n < 128 then [n]
  else if n < 2048 then [192 + n / 64, 128 + n % 64]
  else if n < 65536 then [224 + n / 4096, 128 + (n / 64) % 64, 128 + n % 64]
  else [240 + n / 262144, 128 + (n / 4096) % 64, 128 + (n / 64) % 64, 128 + n % 64]

/-- Percent-encode a byte sequence. -/
def percentEncode : List Nat → List Char
  | [] => []
  | b :: bs => '%' :: hexDigit (b / 16) :: hexDigit (b % 16) :: percentEncode bs

/-- JS `encodeURIComponent`, on character lists. -/
def encodeURIComponent : List Char → List Char
  | [] => []
  | c :: cs =>
    (if isUriUnreserved c then [c] else percentEncode (utf8Bytes c)) ++
      encodeURIComponent cs

/-- `pat` is a prefix of the list (JS `String.prototype.startsWith`). -/
def isPrefixC : List Char → List Char → Bool
  | [], _ => true
  | _ :: _, [] => false
  | p :: ps, c :: cs => p == c && isPrefixC ps cs

/-- `pat` occurs as a contiguous substring (JS `String.prototype.includes`). -/
def hasInfixC : List Char → List Char → Bool
  | [], pat => isPrefixC pat []
  | c :: cs, pat => isPrefixC pat (c :: cs) || hasInfixC cs pat

/-- JS `String.prototype.replace` with a string pattern: replace only the
first occurrence (if any). -/
def replaceFirst : List Char → List Char → List Char → List Char
  | [], _, _ => []
  | c :: cs, pat, rep =>
    if isPrefixC pat (c :: cs) then rep ++ (c :: cs).drop pat.length
    else c :: replaceFirst cs pat rep

/-- The current-conditions request URL (line 29 of the source). -/
def weatherUrl (city units key : String) : List Char :=
  ("https://api.openweathermap.org/data/2.5/weather?q=").toList ++
    encodeURIComponent city.toList ++ ("&appid=").toList ++ key.toList ++
    ("&units=").toList ++ units.toList

/-- The forecast request URL (line 64 of the source). -/
def forecastUrl (city units key : String) : List Char :=
  ("https://api.openweathermap.org/data/2.5/forecast?q=").toList ++
    encodeURIComponent city.toList ++ ("&appid=").toList ++ key.toList ++
    ("&units=").toList ++ units.toList

/-- The URL logged for the current-conditions request:
`weatherUrl.replace(OPENWEATHER_API_KEY, "[API_KEY]")` (line 30). -/
def loggedWeatherUrl (city units key : String) : List Char :=
  replaceFirst (weatherUrl city units key) key.toList ("[API_KEY]").toList

/-- The URL logged for the forecast request (line 65). -/
def loggedForecastUrl (city units key : String) : List Char :=
  replaceFirst (forecastUrl city units key) key.toList ("[API_KEY]").toList

/-- ASCII alphanumeric. -/
def isAlnumC (c : Char) : Bool := c.isAlpha || c.isDigit

/-- Length of the alphanumeric run starting at the head. -/
def alnumRunLen : List Char → Nat
  | [] => 0
  | c :: cs => if isAlnumC c then alnumRunLen cs + 1 else 0

/-- Length of the longest alphanumeric run in the list. -/
def maxAlnumRun : List Char → Nat
  | [] => 0
  | c :: cs => max (alnumRunLen (c :: cs)) (maxAlnumRun cs)

/-- The status code of a response (200 for a record body). -/
def respStatus : Response → Nat
  | .ok s _ => s
  | .err s _ => s

/-- A sample parsed current-conditions payload used to instantiate
hypotheses at concrete inputs. -/
def sampleW : CurrentPayload :=
  { name := "Paris", sysCountry := "FR", coordLat := 48, coordLon := 2,
    mainTemp := 70.4, mainFeelsLike := 68.2, mainHumidity := 50,
    mainPressure := 1013, visibility := some 10000, windSpeed := some 10,
    weatherMain := "Clear", weatherDescription := "clear sky",
    weatherIcon := "01d" }

/-- `sampleW` with an upstream visibility of `0` meters. -/
def wVis0 : CurrentPayload := { sampleW with visibility := some 0 }

/-- `sampleW` with the visibility field absent. -/
def wNoVis : CurrentPayload := { sampleW with visibility := none }

/-- A sample upstream forecast entry. -/
def sampleEntry : ForecastEntry :=
  { dt := 1700000000, mainTemp := 55.6, mainHumidity := 80,
    weatherMain := "Rain", weatherDescription := "light rain",
    weatherIcon := "10d", windSpeed := some 7.3, pop := 0.35 }

/-- A well-formed 32-character credential. -/
def key32 : String := "0123456789abcdef0123456789abcdef"

/-- A 32-character credential made of a single repeated letter, used as a
city name in the redaction counterexample. -/
def keyA : String := "aaaaaaaaaaaaaaaaaaaaaaaaaaaaaaaa"

/-- `x || 0` is the identity on a present numeric field (also at `0`). -/
theorem jsOrQ_some_self (x : ℚ) : jsOrQ (some x) 0 = x := by
  unfold jsOrQ
  split <;> simp_all

/-- Rounding an integer-valued rational is the identity. -/
theorem jround_intCast (n : ℤ) : jround ((n : ℤ) : ℚ) = n := by
  unfold jround
  rw [Int.floor_int_add]
  norm_num

/-- A 32-character key is not the empty string. -/
theorem key_ne_empty {key : String} (h : key.length = 32) : (key == "") = false := by
  rcases hb : key == "" with _ | _
  · rfl
  · exfalso
    rw [beq_iff_eq] at hb
    subst hb
    simp at h

/-- Reduction of the handler on the success path: truthy city, well-formed
key, mandatory call ok and parsed. -/
theorem GET_success (c u : Option String) (key et : String) (s : Nat)
    (w : CurrentPayload) (fc : ForecastOutcome) (uv : UvOutcome)
    (hc : jsFalsyStr c = false) (hkey : key.length = 32)
    (hok : httpOk s = true) :
    GET c u (some key) (.resp s et (some w)) fc uv =
      (.ok 200 (buildRecord (effUnits u) w fc uv), 3) := by
  simp [GET, hc, key_ne_empty hkey, hkey, hok]

/-- A prefix of a list is a prefix of any right-extension. -/
theorem isPrefixC_append_right (p l t : List Char)
    (h : isPrefixC p l = true) : isPrefixC p (l ++ t) = true := by
  induction p generalizing l with
  | nil => rfl
  | cons x xs ih =>
    cases l with
    | nil => simp [isPrefixC] at h
    | cons c cs =>
      rw [isPrefixC, Bool.and_eq_true] at h
      rw [List.cons_append, isPrefixC, Bool.and_eq_true]
      exact ⟨h.1, ih cs h.2⟩

/-- Any list has `[]` as a prefix-occurrence everywhere. -/
theorem hasInfixC_nil_pat (l : List Char) : hasInfixC l [] = true := by
  cases l <;> simp [hasInfixC, isPrefixC]

/-- A pattern avoiding the character `c` that is a prefix of `A ++ c :: B`
is already a prefix of `A`. -/
theorem isPrefixC_of_append_sep {pat A B : List Char} {c : Char}
    (hc : c ∉ pat) (h : isPrefixC pat (A ++ c :: B) = true) :
    isPrefixC pat A = true := by
  induction pat generalizing A B with
  | nil => rfl
  | cons p ps ih =>
    cases A with
    | nil =>
      rw [List.nil_append, isPrefixC, Bool.and_eq_true, beq_iff_eq] at h
      exact absurd (h.1 ▸ List.mem_cons_self p ps) hc
    | cons a A' =>
      rw [List.cons_append, isPrefixC, Bool.and_eq_true] at h
      rw [isPrefixC, Bool.and_eq_true]
      exact ⟨h.1, ih (fun hm => hc (List.mem_cons_of_mem p hm)) h.2⟩

/-- A prefix-occurrence is an occurrence. -/
theorem hasInfixC_of_isPrefixC {l pat : List Char}
    (h : isPrefixC pat l = true) : hasInfixC l pat = true := by
  cases l with
  | nil => exact h
  | cons c cs => rw [hasInfixC, Bool.or_eq_true]; exact Or.inl h

/-- An occurrence in the tail is an occurrence. -/
theorem hasInfixC_cons {c : Char} {cs pat : List Char}
    (h : hasInfixC cs pat = true) : hasInfixC (c :: cs) pat = true := by
  rw [hasInfixC, Bool.or_eq_true]; exact Or.inr h

/-- Splitting occurrences at a character the pattern avoids: an occurrence
in `A ++ c :: B` is an occurrence in `A` or in `B`. -/
theorem hasInfixC_append_sep {pat A B : List Char} {c : Char} (hc : c ∉ pat)
    (h : hasInfixC (A ++ c :: B) pat = true) :
    hasInfixC A pat = true ∨ hasInfixC B pat = true := by
  induction A with
  | nil =>
    rw [List.nil_append, hasInfixC, Bool.or_eq_true] at h
    rcases h with h | h
    · cases pat with
      | nil => exact Or.inl (hasInfixC_nil_pat [])
      | cons p ps =>
        rw [isPrefixC, Bool.and_eq_true, beq_iff_eq] at h
        exact absurd (h.1 ▸ List.mem_cons_self p ps) hc
    · exact Or.inr h
  | cons a A' ih =>
    rw [List.cons_append, hasInfixC, Bool.or_eq_true] at h
    rcases h with h | h
    · rw [← List.cons_append] at h
      exact Or.inl (hasInfixC_of_isPrefixC (isPrefixC_of_append_sep hc h))
    · rcases ih h with h' | h'
      · exact Or.inl (hasInfixC_cons h')
      · exact Or.inr h'

/-- Contrapositive form of `hasInfixC_append_sep`. -/
theorem hasInfixC_append_sep_false {pat A B : List Char} {c : Char}
    (hc : c ∉ pat) (hA : hasInfixC A pat = false)
    (hB : hasInfixC B pat = false) :
    hasInfixC (A ++ c :: B) pat = false := by
  rcases h : hasInfixC (A ++ c :: B) pat with _ | _
  · rfl
  · rcases hasInfixC_append_sep hc h with h' | h' <;> simp_all

/-- An all-alphanumeric pattern prefixing `l` is bounded by the length of
the initial alphanumeric run of `l`. -/
theorem alnumRunLen_ge_of_isPrefixC {pat l : List Char}
    (halnum : ∀ c ∈ pat, isAlnumC c = true)
    (h : isPrefixC pat l = true) : pat.length ≤ alnumRunLen l := by
  induction pat generalizing l with
  | nil => exact Nat.zero_le _
  | cons p ps ih =>
    cases l with
    | nil => simp [isPrefixC] at h
    | cons x xs =>
      rw [isPrefixC, Bool.and_eq_true, beq_iff_eq] at h
      rw [List.length_cons, alnumRunLen, ← h.1,
        halnum p (List.mem_cons_self p ps), if_pos rfl]
      exact Nat.succ_le_succ
        (ih (fun c hm => halnum c (List.mem_cons_of_mem p hm)) h.2)

/-- An all-alphanumeric pattern occurring in `l` is bounded by the longest
alphanumeric run of `l`. -/
theorem maxAlnumRun_ge_of_hasInfixC {l pat : List Char}
    (halnum : ∀ c ∈ pat, isAlnumC c = true)
    (h : hasInfixC l pat = true) : pat.length ≤ maxAlnumRun l := by
  induction l with
  | nil =>
    cases pat with
    | nil => exact Nat.le_refl 0
    | cons p ps => simp [hasInfixC, isPrefixC] at h
  | cons c cs ih =>
    rw [hasInfixC, Bool.or_eq_true] at h
    rw [maxAlnumRun]
    rcases h with h | h
    · exact Nat.le_trans (alnumRunLen_ge_of_isPrefixC halnum h)
        (Nat.le_max_left _ _)
    · exact Nat.le_trans (ih h) (Nat.le_max_right _ _)

/-- A list whose alphanumeric runs are all shorter than an all-alphanumeric
pattern does not contain the pattern. -/
theorem hasInfixC_false_of_short_runs {l pat : List Char}
    (halnum : ∀ c ∈ pat, isAlnumC c = true)
    (hshort : maxAlnumRun l < pat.length) : hasInfixC l pat = false := by
  rcases h : hasInfixC l pat with _ | _
  · rfl
  · exact absurd (maxAlnumRun_ge_of_hasInfixC halnum h)
      (Nat.not_le_of_lt hshort)

/-- A non-alphanumeric character does not occur in an all-alphanumeric
pattern. -/
theorem not_mem_of_alnum {pat : List Char}
    (halnum : ∀ c ∈ pat, isAlnumC c = true) {a : Char}
    (ha : isAlnumC a = false) : a ∉ pat := by
  intro hm
  rw [halnum a hm] at ha
  exact absurd ha (by simp)

/-- Every list is a prefix of itself extended on the right. -/
theorem isPrefixC_self_append (p t : List Char) :
    isPrefixC p (p ++ t) = true := by
  induction p with
  | nil => rfl
  | cons x xs ih => simp [isPrefixC, ih]

/-- Dropping the length of the left part of an append. -/
theorem drop_len_append (p t : List Char) : (p ++ t).drop p.length = t := by
  induction p with
  | nil => rfl
  | cons x xs ih => simp [ih]

/-- `replaceFirst` on a string of the shape `A ++ c :: pat ++ B` where the
pattern avoids `c` and does not occur in `A ++ [c]` rewrites exactly the
shown occurrence. -/
theorem replaceFirst_boundary {pat A B rep : List Char} {c : Char}
    (hpat : pat ≠ []) (hc : c ∉ pat)
    (hA : hasInfixC (A ++ [c]) pat = false) :
    replaceFirst (A ++ c :: (pat ++ B)) pat rep = A ++ c :: (rep ++ B) := by
  induction A with
  | nil =>
    rw [List.nil_append, List.nil_append, replaceFirst]
    have hpre : isPrefixC pat (c :: (pat ++ B)) = false := by
      rcases hp : isPrefixC pat (c :: (pat ++ B)) with _ | _
      · rfl
      · cases pat with
        | nil => exact absurd rfl hpat
        | cons p ps =>
          rw [isPrefixC, Bool.and_eq_true, beq_iff_eq] at hp
          exact absurd (hp.1 ▸ List.mem_cons_self p ps) hc
    rw [if_neg (by simp [hpre])]
    congr 1
    cases pat with
    | nil => exact absurd rfl hpat
    | cons p ps =>
      rw [List.cons_append, replaceFirst,
        if_pos (by rw [← List.cons_append]; exact isPrefixC_self_append _ _),
        ← List.cons_append, drop_len_append]
  | cons a A' ih =>
    rw [List.cons_append, replaceFirst]
    have hpre : isPrefixC pat (a :: (A' ++ c :: (pat ++ B))) = false := by
      rcases hp : isPrefixC pat (a :: (A' ++ c :: (pat ++ B))) with _ | _
      · rfl
      · rw [show a :: (A' ++ c :: (pat ++ B)) =
          (a :: A') ++ c :: (pat ++ B) from rfl] at hp
        have h1 : isPrefixC pat ((a :: A') ++ [c]) = true :=
          isPrefixC_append_right _ _ _ (isPrefixC_of_append_sep hc hp)
        have h2 : hasInfixC ((a :: A') ++ [c]) pat = true :=
          hasInfixC_of_isPrefixC h1
        rw [h2] at hA
        exact absurd hA (by simp)
    rw [if_neg (by simp [hpre])]
    have hA' : hasInfixC (A' ++ [c]) pat = false := by
      rw [List.cons_append, hasInfixC, Bool.or_eq_false_iff] at hA
      exact hA.2
    rw [List.cons_append, ih hA']

/-- `x || d` keeps a present nonzero value. -/
theorem jsOrQ_some_ne {v : ℚ} (hv : v ≠ 0) (d : ℚ) : jsOrQ (some v) d = v := by
  simp [jsOrQ, hv]

/-- Redaction core: in a URL of the provider's shape, with the key directly
after `appid=`, replacing the first occurrence of an all-alphanumeric
32-character key leaves no occurrence of the key, provided neither the
encoded city segment `E` nor the units segment `U` contains it, and the
head (everything before the `q=` separator) does not either. -/
theorem logged_url_no_key (head E U K : List Char)
    (hKlen : K.length = 32) (halnum : ∀ c ∈ K, isAlnumC c = true)
    (hhead : hasInfixC head K = false)
    (hE : hasInfixC E K = false) (hU : hasInfixC U K = false) :
    hasInfixC (replaceFirst
      (head ++ '=' :: (E ++ ("&appid=").toList ++ K ++ ("&units=").toList ++ U))
      K ("[API_KEY]").toList) K = false := by
  have hKne : K ≠ [] := by
    intro h
    rw [h] at hKlen
    simp at hKlen
  have hEqK : '=' ∉ K := not_mem_of_alnum halnum (by decide)
  have hAmpK : '&' ∉ K := not_mem_of_alnum halnum (by decide)
  have happid : hasInfixC ("appid").toList K = false :=
    hasInfixC_false_of_short_runs halnum (by rw [hKlen]; decide)
  have hukey : hasInfixC ("[API_KEY]&units").toList K = false :=
    hasInfixC_false_of_short_runs halnum (by rw [hKlen]; decide)
  have hA : hasInfixC ((head ++ '=' :: (E ++ ("&appid").toList)) ++ ['=']) K = false := by
    have hid : (head ++ '=' :: (E ++ ("&appid").toList)) ++ ['='] =
        head ++ '=' :: (E ++ '&' :: ("appid=").toList) := by
      simp only [List.append_assoc, List.cons_append]
      rfl
    rw [hid]
    exact hasInfixC_append_sep_false hEqK hhead
      (hasInfixC_append_sep_false hAmpK hE
        (hasInfixC_false_of_short_runs halnum (by rw [hKlen]; decide)))
  have h1 : head ++ '=' :: (E ++ ("&appid=").toList ++ K ++ ("&units=").toList ++ U) =
      (head ++ '=' :: (E ++ ("&appid").toList)) ++ '=' :: (K ++ (("&units=").toList ++ U)) := by
    simp only [List.append_assoc, List.cons_append]
    rfl
  rw [h1, replaceFirst_boundary hKne hEqK hA]
  have hA0 : hasInfixC (head ++ '=' :: (E ++ ("&appid").toList)) K = false :=
    hasInfixC_append_sep_false hEqK hhead
      (hasInfixC_append_sep_false hAmpK hE happid)
  have hRight : hasInfixC (("[API_KEY]").toList ++ (("&units=").toList ++ U)) K = false := by
    have hid2 : ("[API_KEY]").toList ++ (("&units=").toList ++ U) =
        ("[API_KEY]&units").toList ++ '=' :: U := rfl
    rw [hid2]
    exact hasInfixC_append_sep_false hEqK hukey hU
  exact hasInfixC_append_sep_false hEqK hA0 hRight

/-- The current-conditions URL, split at the `q=` separator. -/
theorem wurl_shape (city units key : String) :
    weatherUrl city units key =
      ("https://api.openweathermap.org/data/2.5/weather?q").toList ++
        '=' :: (encodeURIComponent city.toList ++ ("&appid=").toList ++
          key.toList ++ ("&units=").toList ++ units.toList) := by
  simp only [weatherUrl, List.append_assoc, List.cons_append]
  rfl

/-- The forecast URL, split at the `q=` separator. -/
theorem furl_shape (city units key : String) :
    forecastUrl city units key =
      ("https://api.openweathermap.org/data/2.5/forecast?q").toList ++
        '=' :: (encodeURIComponent city.toList ++ ("&appid=").toList ++
          key.toList ++ ("&units=").toList ++ units.toList) := by
  simp only [forecastUrl, List.append_assoc, List.cons_append]
  rfl

/-- C1: on every successful response the wind invariant holds: under
imperial units `windSpeed` is the upstream wind speed rounded (pass-through,
already mph) and `windUnit` is `"mph"`; under metric units `windSpeed` is
`round(speed * 3.6)` (m/s to km/h) and `windUnit` is `"km/h"`. -/
theorem C1_wind_conversion (c u : Option String) (key et : String) (s : Nat)
    (w : CurrentPayload) (fc : ForecastOutcome) (uv : UvOutcome) (ws : ℚ)
    (hc : jsFalsyStr c = false) (hkey : key.length = 32)
    (hok : httpOk s = true) (hws : w.windSpeed = some ws) :
    (GET c u (some key) (.resp s et (some w)) fc uv).1 =
        .ok 200 (buildRecord (effUnits u) w fc uv)
    ∧ (effUnits u = "imperial" →
        (buildRecord (effUnits u) w fc uv).windSpeed = jround ws ∧
        (buildRecord (effUnits u) w fc uv).windUnit = "mph")
    ∧ (effUnits u = "metric" →
        (buildRecord (effUnits u) w fc uv).windSpeed = jround (ws * 3.6) ∧
        (buildRecord (effUnits u) w fc uv).windUnit = "km/h") := by
  refine ⟨by rw [GET_success c u key et s w fc uv hc hkey hok], ?_, ?_⟩
  · intro h
    rw [h]
    constructor <;> simp [buildRecord, hws, jsOrQ_some_self]
  · intro h
    rw [h]
    constructor <;> simp [buildRecord, hws, jsOrQ_some_self, jround_intCast]

/-- C1 witness: metric upstream wind 10 m/s gives windSpeed 36 km/h, and
imperial upstream wind 10 mph passes through as 10 mph. -/
theorem C1_wind_conversion_witness :
    ((GET (some "Paris") (some "metric") (some key32)
        (.resp 200 "" (some sampleW)) .fail .fail).1 =
      .ok 200 (buildRecord "metric" sampleW .fail .fail))
    ∧ (buildRecord "metric" sampleW .fail .fail).windSpeed = 36
    ∧ (buildRecord "metric" sampleW .fail .fail).windUnit = "km/h"
    ∧ (buildRecord "imperial" sampleW .fail .fail).windSpeed = 10
    ∧ (buildRecord "imperial" sampleW .fail .fail).windUnit = "mph" := by
  obtain ⟨h1, _, h3⟩ := C1_wind_conversion (some "Paris") (some "metric") key32
    "" 200 sampleW .fail .fail 10 (by decide) (by decide) (by decide) rfl
  obtain ⟨h4, h5⟩ := h3 rfl
  obtain ⟨_, h6, h7⟩ := C1_wind_conversion (some "Paris") (some "imperial") key32
    "" 200 sampleW .fail .fail 10 (by decide) (by decide) (by decide) rfl
  obtain ⟨h8, h9⟩ := h6 rfl
  refine ⟨h1, ?_, h5, ?_, h9⟩
  · have h4' : (buildRecord "metric" sampleW .fail .fail).windSpeed =
        jround (10 * 3.6) := h4
    rw [h4']
    norm_num [jround]
  · have h8' : (buildRecord "imperial" sampleW .fail .fail).windSpeed =
        jround 10 := h8
    rw [h8']
    norm_num [jround]

/-- C2 counterexample: a successful metric response whose upstream
visibility is `0` meters reports visibility `10` km — not
`round(0 / 1000) = 0` as the claim requires for every successful response —
because `weatherData.visibility || 10000` treats `0` as absent. -/
theorem C2_visibility_zero_counterexample :
    (GET (some "London") (some "metric") (some key32)
        (.resp 200 "" (some wVis0)) .fail .fail).1 =
      .ok 200 (buildRecord "metric" wVis0 .fail .fail)
    ∧ wVis0.visibility = some 0
    ∧ (buildRecord "metric" wVis0 .fail .fail).visibility = 10
    ∧ (buildRecord "metric" wVis0 .fail .fail).visibility ≠ jround (0 / 1000) := by
  refine ⟨?_, rfl, ?_, ?_⟩
  · rw [GET_success (some "London") (some "metric") key32 "" 200 wVis0
      .fail .fail (by decide) (by decide) (by decide)]
    rfl
  · simp [buildRecord, wVis0, sampleW, jsOrQ]
    norm_num [jround]
  · simp [buildRecord, wVis0, sampleW, jsOrQ]
    norm_num [jround]

/-- C2 (amended): on every successful response whose upstream visibility
field is present and nonzero, visibility is the upstream meters divided by
1609.34 (imperial) or 1000 (metric), rounded, with matching unit label
("mi" / "km"); an absent or zero upstream visibility is replaced by the
default 10000 m before conversion. -/
theorem C2_visibility_conversion (c u : Option String) (key et : String)
    (s : Nat) (w : CurrentPayload) (fc : ForecastOutcome) (uv : UvOutcome)
    (v : ℚ) (hc : jsFalsyStr c = false) (hkey : key.length = 32)
    (hok : httpOk s = true) (hvis : w.visibility = some v) (hv : v ≠ 0) :
    (GET c u (some key) (.resp s et (some w)) fc uv).1 =
        .ok 200 (buildRecord (effUnits u) w fc uv)
    ∧ (effUnits u = "imperial" →
        (buildRecord (effUnits u) w fc uv).visibility = jround (v / 1609.34) ∧
        (buildRecord (effUnits u) w fc uv).visibilityUnit = "mi")
    ∧ (effUnits u = "metric" →
        (buildRecord (effUnits u) w fc uv).visibility = jround (v / 1000) ∧
        (buildRecord (effUnits u) w fc uv).visibilityUnit = "km") := by
  refine ⟨by rw [GET_success c u key et s w fc uv hc hkey hok], ?_, ?_⟩
  · intro h
    rw [h]
    constructor <;> simp [buildRecord, hvis, jsOrQ_some_ne hv]
  · intro h
    rw [h]
    constructor <;> simp [buildRecord, hvis, jsOrQ_some_ne hv]

/-- C2 witness: upstream visibility 10000 m gives 6 "mi" under imperial and
10 "km" under metric. -/
theorem C2_visibility_conversion_witness :
    (GET (some "Paris") (some "imperial") (some key32)
        (.resp 200 "" (some sampleW)) .fail .fail).1 =
      .ok 200 (buildRecord "imperial" sampleW .fail .fail)
    ∧ (buildRecord "imperial" sampleW .fail .fail).visibility = 6
    ∧ (buildRecord "imperial" sampleW .fail .fail).visibilityUnit = "mi"
    ∧ (buildRecord "metric" sampleW .fail .fail).visibility = 10
    ∧ (buildRecord "metric" sampleW .fail .fail).visibilityUnit = "km" := by
  obtain ⟨h1, h2, _⟩ := C2_visibility_conversion (some "Paris") (some "imperial")
    key32 "" 200 sampleW .fail .fail 10000 (by decide) (by decide) (by decide)
    rfl (by norm_num)
  obtain ⟨h3, h4⟩ := h2 rfl
  obtain ⟨_, _, h5⟩ := C2_visibility_conversion (some "Paris") (some "metric")
    key32 "" 200 sampleW .fail .fail 10000 (by decide) (by decide) (by decide)
    rfl (by norm_num)
  obtain ⟨h6, h7⟩ := h5 rfl
  have h3' : (buildRecord "imperial" sampleW .fail .fail).visibility =
      jround (10000 / 1609.34) := h3
  have h6' : (buildRecord "metric" sampleW .fail .fail).visibility =
      jround (10000 / 1000) := h6
  refine ⟨h1, ?_, h4, ?_, h7⟩
  · rw [h3']
    norm_num [jround]
  · rw [h6']
    norm_num [jround]

/-- C9: when the upstream payload omits the visibility field the default
10000 m is substituted before conversion, so a successful response reports
6 "mi" under imperial and 10 "km" under metric. -/
theorem C9_visibility_default (c u : Option String) (key et : String)
    (s : Nat) (w : CurrentPayload) (fc : ForecastOutcome) (uv : UvOutcome)
    (hc : jsFalsyStr c = false) (hkey : key.length = 32)
    (hok : httpOk s = true) (hvis : w.visibility = none) :
    (GET c u (some key) (.resp s et (some w)) fc uv).1 =
        .ok 200 (buildRecord (effUnits u) w fc uv)
    ∧ (effUnits u = "imperial" →
        (buildRecord (effUnits u) w fc uv).visibility = 6 ∧
        (buildRecord (effUnits u) w fc uv).visibilityUnit = "mi")
    ∧ (effUnits u = "metric" →
        (buildRecord (effUnits u) w fc uv).visibility = 10 ∧
        (buildRecord (effUnits u) w fc uv).visibilityUnit = "km") := by
  refine ⟨by rw [GET_success c u key et s w fc uv hc hkey hok], ?_, ?_⟩
  · intro h
    rw [h]
    refine ⟨?_, by simp [buildRecord]⟩
    simp [buildRecord, hvis, jsOrQ]
    norm_num [jround]
  · intro h
    rw [h]
    refine ⟨?_, by simp [buildRecord]⟩
    simp [buildRecord, hvis, jsOrQ]
    norm_num [jround]

/-- C9 witness: the default applies at the concrete no-visibility payload
in both unit systems. -/
theorem C9_visibility_default_witness :
    (GET (some "Paris") (some "imperial") (some key32)
        (.resp 200 "" (some wNoVis)) .fail .fail).1 =
      .ok 200 (buildRecord "imperial" wNoVis .fail .fail)
    ∧ (buildRecord "imperial" wNoVis .fail .fail).visibility = 6
    ∧ (buildRecord "imperial" wNoVis .fail .fail).visibilityUnit = "mi"
    ∧ (buildRecord "metric" wNoVis .fail .fail).visibility = 10
    ∧ (buildRecord "metric" wNoVis .fail .fail).visibilityUnit = "km" := by
  obtain ⟨h1, h2, _⟩ := C9_visibility_default (some "Paris") (some "imperial")
    key32 "" 200 wNoVis .fail .fail (by decide) (by decide) (by decide) rfl
  obtain ⟨h3, h4⟩ := h2 rfl
  obtain ⟨_, _, h5⟩ := C9_visibility_default (some "Paris") (some "metric")
    key32 "" 200 wNoVis .fail .fail (by decide) (by decide) (by decide) rfl
  obtain ⟨h6, h7⟩ := h5 rfl
  exact ⟨h1, h3, h4, h6, h7⟩

/-- C3: whenever the mandatory call succeeds, the response is the 200
record for every outcome of the two best-effort branches; a forecast
failure only empties `hourlyForecast`, a UV failure only zeroes `uvIndex`,
each best-effort branch influences only its own field, and all other
fields agree across arbitrary best-effort outcomes. -/
theorem C3_best_effort_containment (c u : Option String) (key et : String)
    (s : Nat) (w : CurrentPayload) (hc : jsFalsyStr c = false)
    (hkey : key.length = 32) (hok : httpOk s = true) :
    ∀ fc uv fc' uv',
      (GET c u (some key) (.resp s et (some w)) fc uv).1 =
          .ok 200 (buildRecord (effUnits u) w fc uv)
      ∧ (fcFailed fc → (buildRecord (effUnits u) w fc uv).hourlyForecast = [])
      ∧ (uvFailed uv → (buildRecord (effUnits u) w fc uv).uvIndex = 0)
      ∧ (buildRecord (effUnits u) w fc uv).hourlyForecast =
          (buildRecord (effUnits u) w fc uv').hourlyForecast
      ∧ (buildRecord (effUnits u) w fc uv).uvIndex =
          (buildRecord (effUnits u) w fc' uv).uvIndex
      ∧ buildRecord (effUnits u) w fc uv =
          { buildRecord (effUnits u) w fc' uv' with
              hourlyForecast := (buildRecord (effUnits u) w fc uv).hourlyForecast,
              uvIndex := (buildRecord (effUnits u) w fc uv).uvIndex } := by
  intro fc uv fc' uv'
  refine ⟨by rw [GET_success c u key et s w fc uv hc hkey hok], ?_, ?_, rfl, rfl, rfl⟩
  · intro hf
    cases fc with
    | fail => rfl
    | resp sf l =>
      rw [fcFailed] at hf
      simp [buildRecord, hourlyOf, hf]
  · intro hf
    cases uv with
    | fail => rfl
    | resp su v =>
      rw [uvFailed] at hf
      simp [buildRecord, uvIndexOf, hf]

/-- C3 witness: concrete success of the mandatory call with both
best-effort branches failing yields the 200 record with empty forecast and
zero UV index. -/
theorem C3_best_effort_containment_witness :
    (GET (some "Paris") none (some key32) (.resp 200 "" (some sampleW))
        .fail .fail).1 =
      .ok 200 (buildRecord (effUnits none) sampleW .fail .fail)
    ∧ (buildRecord (effUnits none) sampleW .fail .fail).hourlyForecast = []
    ∧ (buildRecord (effUnits none) sampleW .fail .fail).uvIndex = 0 := by
  obtain ⟨h1, h2, h3, _, _, _⟩ := C3_best_effort_containment (some "Paris")
    none key32 "" 200 sampleW (by decide) (by decide) (by decide)
    .fail .fail (.resp 200 []) (.resp 200 (some 5))
  exact ⟨h1, h2 trivial, h3 trivial⟩

/-- C4: on a successful forecast fetch, `hourlyForecast` is exactly the
first 8 upstream entries in order (hence length at most 8), each mapped
with rounded temperature, the per-unit wind conversion, and precipitation
`pop * 100` with no rounding. -/
theorem C4_forecast_mapping (c u : Option String) (key et : String)
    (s sf : Nat) (w : CurrentPayload) (l : List ForecastEntry)
    (uv : UvOutcome) (hc : jsFalsyStr c = false) (hkey : key.length = 32)
    (hok : httpOk s = true) (hfc : httpOk sf = true) :
    (GET c u (some key) (.resp s et (some w)) (.resp sf l) uv).1 =
        .ok 200 (buildRecord (effUnits u) w (.resp sf l) uv)
    ∧ (buildRecord (effUnits u) w (.resp sf l) uv).hourlyForecast =
        (l.take 8).map (fun item =>
          { time := item.dt
            temperature := jround item.mainTemp
            condition := item.weatherMain
            description := item.weatherDescription
            iconCode := item.weatherIcon
            humidity := item.mainHumidity
            windSpeed :=
              if effUnits u == "imperial" then jround (jsOrQ item.windSpeed 0)
              else jround (jsOrQ item.windSpeed 0 * 3.6)
            precipitation := item.pop * 100 })
    ∧ (buildRecord (effUnits u) w (.resp sf l) uv).hourlyForecast.length ≤ 8 := by
  refine ⟨by rw [GET_success c u key et s w (.resp sf l) uv hc hkey hok],
    ?_, ?_⟩
  · simp only [buildRecord, hourlyOf, hfc, if_pos]
    rfl
  · simp only [buildRecord, hourlyOf, hfc, if_pos, List.length_map,
      List.length_take]
    exact min_le_left _ _

/-- C4 witness: a one-entry forecast list under imperial units maps to the
explicit hourly entry, with precipitation 35 (0.35 × 100) unrounded. -/
theorem C4_forecast_mapping_witness :
    (buildRecord "imperial" sampleW (.resp 200 [sampleEntry]) .fail).hourlyForecast =
      [{ time := 1700000000, temperature := 56, condition := "Rain",
         description := "light rain", iconCode := "10d", humidity := 80,
         windSpeed := 7, precipitation := 35 }]
    ∧ (buildRecord "imperial" sampleW (.resp 200 [sampleEntry]) .fail).hourlyForecast.length ≤ 8 := by
  obtain ⟨_, h2, h3⟩ := C4_forecast_mapping (some "Berlin") (some "imperial")
    key32 "" 200 200 sampleW [sampleEntry] .fail (by decide) (by decide)
    (by decide) (by decide)
  have h2' : (buildRecord "imperial" sampleW (.resp 200 [sampleEntry]) .fail).hourlyForecast =
      ([sampleEntry].take 8).map (fun item =>
        { time := item.dt
          temperature := jround item.mainTemp
          condition := item.weatherMain
          description := item.weatherDescription
          iconCode := item.weatherIcon
          humidity := item.mainHumidity
          windSpeed :=
            if effUnits (some "imperial") == "imperial" then
              jround (jsOrQ item.windSpeed 0)
            else jround (jsOrQ item.windSpeed 0 * 3.6)
          precipitation := item.pop * 100 }) := h2
  refine ⟨?_, h3⟩
  rw [h2']
  norm_num [sampleEntry, jsOrQ, jround, effUnits]

/-- C5 counterexample: a whitespace-only city (`" "`), which is empty after
trimming, is NOT rejected: with a healthy upstream the handler returns the
200 record and attempts 3 upstream fetches, because the guard `!city` only
catches `null` and the empty string and the handler never trims. -/
theorem C5_whitespace_city_counterexample :
    (GET (some " ") (some "imperial") (some key32)
        (.resp 200 "" (some sampleW)) .fail .fail).2 = 3
    ∧ (GET (some " ") (some "imperial") (some key32)
        (.resp 200 "" (some sampleW)) .fail .fail).1 =
      .ok 200 (buildRecord "imperial" sampleW .fail .fail)
    ∧ (GET (some " ") (some "imperial") (some key32)
        (.resp 200 "" (some sampleW)) .fail .fail).1 ≠
      .err 400 "City parameter is required" := by
  have h := GET_success (some " ") (some "imperial") key32 "" 200 sampleW
    .fail .fail (by decide) (by decide) (by decide)
  rw [h]
  refine ⟨rfl, rfl, by simp⟩

/-- C5 (amended): a request whose city parameter is absent or is the empty
string gets the MissingParameter error (HTTP 400, body holding only the
error message) with no upstream call; a whitespace-only city is not
rejected and is forwarded upstream. -/
theorem C5_missing_city (c u k : Option String) (cur : CurrentOutcome)
    (fc : ForecastOutcome) (uv : UvOutcome)
    (h : c = none ∨ c = some "") :
    GET c u k cur fc uv = (.err 400 "City parameter is required", 0) := by
  rcases h with h | h <;> subst h <;> rfl

/-- C5 witness: the missing-city error at a concrete request. -/
theorem C5_missing_city_witness :
    GET none (some "metric") (some key32) (.resp 200 "" (some sampleW))
      .fail .fail = (.err 400 "City parameter is required", 0) :=
  C5_missing_city none (some "metric") (some key32)
    (.resp 200 "" (some sampleW)) .fail .fail (Or.inl rfl)

/-- C6 counterexample: when the city parameter is missing AND the
credential is absent, the response is the 400 missing-city error, not 500:
the city check runs before the credential check, so the claim's "regardless
of the other parameters (in particular, also when the city parameter is
missing)" fails. -/
theorem C6_checking_order_counterexample :
    GET none (some "imperial") none (.resp 200 "" (some sampleW))
        .fail .fail = (.err 400 "City parameter is required", 0)
    ∧ (400 : Nat) ≠ 500 := by
  exact ⟨rfl, by decide⟩

/-- C6 (amended): for every request with a present, non-empty city, an
absent credential or one whose length differs from 32 characters yields
HTTP 500 with no upstream call attempted; when the city is also missing,
the 400 missing-city error takes precedence. -/
theorem C6_misconfigured_key (c u k : Option String) (cur : CurrentOutcome)
    (fc : ForecastOutcome) (uv : UvOutcome) (hc : jsFalsyStr c = false)
    (hk : k = none ∨ k = some "" ∨ ∃ key, k = some key ∧ key.length ≠ 32) :
    (GET c u k cur fc uv).2 = 0
    ∧ ∃ m, (GET c u k cur fc uv).1 = .err 500 m := by
  rcases hk with h | h | ⟨key, h, hlen⟩ <;> subst h
  · exact ⟨by simp [GET, hc], "OpenWeatherMap API key not configured",
      by simp [GET, hc]⟩
  · exact ⟨by simp [GET, hc], "OpenWeatherMap API key not configured",
      by simp [GET, hc]⟩
  · rcases hb : key == "" with _ | _
    · refine ⟨by simp [GET, hc, hb, hlen],
        "Invalid API key format. Please check your OPENWEATHER_API_KEY.",
        by simp [GET, hc, hb, hlen]⟩
    · refine ⟨by simp [GET, hc, hb],
        "OpenWeatherMap API key not configured", by simp [GET, hc, hb]⟩

/-- C6 witness: a present city with an absent key gives 500 and no fetch. -/
theorem C6_misconfigured_key_witness :
    (GET (some "London") none none (.resp 200 "" (some sampleW))
        .fail .fail).2 = 0
    ∧ ∃ m, (GET (some "London") none none (.resp 200 "" (some sampleW))
        .fail .fail).1 = .err 500 m :=
  C6_misconfigured_key (some "London") none none
    (.resp 200 "" (some sampleW)) .fail .fail (by decide) (Or.inl rfl)

/-- C7: a non-ok status of the mandatory call terminates the request after
that single fetch with an error-only body: 401 maps to 401, 404 to 404 with
the spelling message, 429 to 429, and any other non-ok status is propagated
verbatim with the generic message. -/
theorem C7_upstream_error_mapping (c u : Option String) (key et : String)
    (s : Nat) (p : Option CurrentPayload) (fc : ForecastOutcome)
    (uv : UvOutcome) (hc : jsFalsyStr c = false) (hkey : key.length = 32)
    (hbad : httpOk s = false) :
    GET c u (some key) (.resp s et p) fc uv = (mapWeatherError s, 1)
    ∧ mapWeatherError s =
        (if s = 401 then
          .err 401 "Invalid API key. Please check your OpenWeatherMap API key and ensure it's activated."
        else if s = 404 then
          .err 404 "City not found. Please check the spelling and try again."
        else if s = 429 then
          .err 429 "API rate limit exceeded. Please try again later."
        else
          .err s ("Weather service error (" ++ toString s ++ "). Please try again later.")) := by
  constructor
  · simp [GET, hc, key_ne_empty hkey, hkey, hbad]
  · simp [mapWeatherError, beq_iff_eq]

/-- C7 witness: the mandatory call returning 404 yields the 404 response
whose message mentions spelling, after exactly one upstream fetch. -/
theorem C7_upstream_error_mapping_witness :
    GET (some "Atlantis") (some "imperial") (some key32)
        (.resp 404 "city not found" none) .fail .fail =
      (mapWeatherError 404, 1)
    ∧ mapWeatherError 404 =
      .err 404 "City not found. Please check the spelling and try again." := by
  obtain ⟨h1, h2⟩ := C7_upstream_error_mapping (some "Atlantis")
    (some "imperial") key32 "city not found" 404 none .fail .fail
    (by decide) (by decide) (by decide)
  refine ⟨h1, ?_⟩
  rw [h2]
  norm_num

/-- C8 counterexample: `String.replace` only replaces the first occurrence
of the credential, so a request whose city equals the credential leaves the
raw `appid=` credential in the logged weather URL: the redaction claim
fails for that invocation. -/
theorem C8_first_occurrence_counterexample :
    keyA.length = 32
    ∧ hasInfixC (loggedWeatherUrl keyA "imperial" keyA) keyA.toList = true := by
  exact ⟨by decide, by decide⟩

set_option maxRecDepth 8000 in
/-- C8 (amended): every logged URL has the credential redacted, provided
the 32-character credential is alphanumeric and neither the URI-encoded
city nor the units string contains the credential as a substring; since
only the first occurrence is replaced, a city or units value whose encoding
contains the credential defeats the redaction. -/
theorem C8_redaction (city units key : String)
    (hlen : key.toList.length = 32)
    (halnum : ∀ c ∈ key.toList, isAlnumC c = true)
    (hcity : hasInfixC (encodeURIComponent city.toList) key.toList = false)
    (hunits : hasInfixC units.toList key.toList = false) :
    hasInfixC (loggedWeatherUrl city units key) key.toList = false
    ∧ hasInfixC (loggedForecastUrl city units key) key.toList = false := by
  constructor
  · rw [loggedWeatherUrl, wurl_shape]
    exact logged_url_no_key _ _ _ _ hlen halnum
      (hasInfixC_false_of_short_runs halnum (by rw [hlen]; decide))
      hcity hunits
  · rw [loggedForecastUrl, furl_shape]
    exact logged_url_no_key _ _ _ _ hlen halnum
      (hasInfixC_false_of_short_runs halnum (by rw [hlen]; decide))
      hcity hunits

/-- C8 witness: a concrete ordinary request whose logged URLs contain no
occurrence of the credential. -/
theorem C8_redaction_witness :
    hasInfixC (loggedWeatherUrl "Paris" "metric" key32) key32.toList = false
    ∧ hasInfixC (loggedForecastUrl "Paris" "metric" key32) key32.toList = false :=
  C8_redaction "Paris" "metric" key32 (by decide) (by decide) (by decide)
    (by decide)

/-- C10: the units parameter is never validated: it defaults to "imperial"
exactly when absent or empty; any other value is forwarded verbatim in the
upstream URL, echoed back in the `units` field, and treated as metric for
every conversion and unit label (wind × 3.6 with "km/h", visibility / 1000
with "km", tempUnit "°C"), including the per-entry forecast conversion. -/
theorem C10_units_not_validated (cityStr uStr key et : String) (s : Nat)
    (w : CurrentPayload) (fc : ForecastOutcome) (uv : UvOutcome)
    (hc : jsFalsyStr (some cityStr) = false) (hkey : key.length = 32)
    (hok : httpOk s = true) (hu1 : uStr ≠ "") (hu2 : uStr ≠ "imperial") :
    effUnits (some uStr) = uStr
    ∧ effUnits none = "imperial"
    ∧ effUnits (some "") = "imperial"
    ∧ (GET (some cityStr) (some uStr) (some key) (.resp s et (some w)) fc uv).1 =
        .ok 200 (buildRecord uStr w fc uv)
    ∧ (buildRecord uStr w fc uv).units = uStr
    ∧ (buildRecord uStr w fc uv).windUnit = "km/h"
    ∧ (buildRecord uStr w fc uv).windSpeed = jround (jsOrQ w.windSpeed 0 * 3.6)
    ∧ (buildRecord uStr w fc uv).visibility =
        jround (jsOrQ w.visibility 10000 / 1000)
    ∧ (buildRecord uStr w fc uv).visibilityUnit = "km"
    ∧ (buildRecord uStr w fc uv).tempUnit = "°C"
    ∧ (∀ item, (mapForecastEntry uStr item).windSpeed =
        jround (jsOrQ item.windSpeed 0 * 3.6))
    ∧ weatherUrl cityStr uStr key =
        ("https://api.openweathermap.org/data/2.5/weather?q=").toList ++
          encodeURIComponent cityStr.toList ++ ("&appid=").toList ++
          key.toList ++ ("&units=").toList ++ uStr.toList := by
  have hbe : (uStr == "") = false := by
    rcases hb : uStr == "" with _ | _
    · rfl
    · rw [beq_iff_eq] at hb
      exact absurd hb hu1
  have hbi : (uStr == "imperial") = false := by
    rcases hb : uStr == "imperial" with _ | _
    · rfl
    · rw [beq_iff_eq] at hb
      exact absurd hb hu2
  have heff : effUnits (some uStr) = uStr := by simp [effUnits, hbe]
  refine ⟨heff, rfl, rfl, ?_, by simp [buildRecord], by simp [buildRecord, hbi],
    by simp [buildRecord, hbi, jround_intCast], by simp [buildRecord, hbi],
    by simp [buildRecord, hbi], by simp [buildRecord, hbi],
    fun item => by simp [mapForecastEntry, hbi], rfl⟩
  rw [GET_success (some cityStr) (some uStr) key et s w fc uv hc hkey hok, heff]

/-- C10 witness: the unvalidated units value "kelvin" is echoed and treated
as metric at a concrete request. -/
theorem C10_units_not_validated_witness :
    effUnits (some "kelvin") = "kelvin"
    ∧ effUnits none = "imperial"
    ∧ effUnits (some "") = "imperial"
    ∧ (GET (some "Paris") (some "kelvin") (some key32)
        (.resp 200 "" (some sampleW)) .fail .fail).1 =
        .ok 200 (buildRecord "kelvin" sampleW .fail .fail)
    ∧ (buildRecord "kelvin" sampleW .fail .fail).units = "kelvin"
    ∧ (buildRecord "kelvin" sampleW .fail .fail).windUnit = "km/h"
    ∧ (buildRecord "kelvin" sampleW .fail .fail).windSpeed =
        jround (jsOrQ sampleW.windSpeed 0 * 3.6)
    ∧ (buildRecord "kelvin" sampleW .fail .fail).visibility =
        jround (jsOrQ sampleW.visibility 10000 / 1000)
    ∧ (buildRecord "kelvin" sampleW .fail .fail).visibilityUnit = "km"
    ∧ (buildRecord "kelvin" sampleW .fail .fail).tempUnit = "°C"
    ∧ (∀ item, (mapForecastEntry "kelvin" item).windSpeed =
        jround (jsOrQ item.windSpeed 0 * 3.6))
    ∧ weatherUrl "Paris" "kelvin" key32 =
        ("https://api.openweathermap.org/data/2.5/weather?q=").toList ++
          encodeURIComponent ("Paris").toList ++ ("&appid=").toList ++
          key32.toList ++ ("&units=").toList ++ ("kelvin").toList :=
  C10_units_not_validated "Paris" "kelvin" key32 "" 200 sampleW .fail .fail
    (by decide) (by decide) (by decide) (by decide) (by decide)
